import Mathlib

/-!
Verification development for the Socratease Fivetran connector
(`src/connector.py` and `src/socratease_api.py`).

The connector is shallowly embedded as pure Lean functions:

* The upstream HTTP API is a `Server` value: one response function per endpoint.
  Every response is an `HttpResp` carrying an HTTP status code and a body; the
  body types mirror the documented response shapes with the `.get(...)`
  default-chains already applied.
* The fatal `RuntimeError` raised by `api_request` on a non-200 status is
  `Except.error status`.
* The `while True` loops (`paginated_api_request`, the paging loop of
  `sync_units`) are fuel-indexed; `none` means the fuel ran out, i.e. the
  Python loop has not terminated within that many iterations.
* The sync routines are Python generator functions.  A generator is embedded
  as a `GenOut` value: the list of values it yields, in order, plus the value
  of its `return` statement.  `yield from g` forwards the yields and evaluates
  to the return value; iterating a generator with a `for` loop produces only
  the yielded values and discards the return value.  This distinction is load
  bearing for `update` (connector.py lines 174-184).
* Timestamps are ISO-8601 strings compared with the string order, exactly as
  Python compares them with `>`.
-/

namespace Socratease

/-- The epoch default watermark used on first runs. -/
def epochTs : String := "1970-01-01T00:00:00Z"

/-- Python truthiness of an optional string (`None` and the empty string are falsy). -/
def pyTruthyStr : Option String → Bool
  | none => false
  | some s => !(s == "")

/-- Python truthiness of an optional integer (`None` and `0` are falsy). -/
def pyTruthyInt : Option Int → Bool
  | none => false
  | some n => !(n == 0)

/-- Python `a or b` on optional strings: `b` when `a` is `None` or empty. -/
def pyOrStr (a b : Option String) : Option String :=
  match a with
  | some s => if s = "" then b else some s
  | none => b

/-- A unit (quiz definition) record, restricted to the fields the connector
reads: `unit.get("unit_id")` and `unit.get("created_at")`.  The remaining
payload is carried opaquely by the real code and never inspected. -/
structure UnitRec where
  unit_id : Option String
  created_at : Option String
deriving DecidableEq

/-- A question definition record; `unit_id` is the field that
`sync_unit_questions` injects before emitting (connector.py line 79). -/
structure QuestionRec where
  question_id : String
  updated_at : String
  unit_id : Option String
deriving DecidableEq

/-- A unit-attempt record, restricted to the fields the connector reads:
`user_id`, `attempt_num`, `finished_at`, `updated_at`. -/
structure AttemptRec where
  user_id : Option String
  attempt_num : Option Int
  finished_at : Option String
  updated_at : Option String
deriving DecidableEq

/-- A question-attempt (response) record; only its identity matters here. -/
structure RespRec where
  user_response_id : Int
deriving DecidableEq

/-- A value of the per-question `responses` mapping returned by
`/v1/user-responses/`: either a Python list of response records, or some
non-list value together with its truthiness, as distinguished by
`responses and isinstance(responses, list)` (connector.py line 139). -/
inductive RVal where
  | list (rs : List RespRec)
  | other (truthy : Bool)
deriving DecidableEq

/-- A value stored in the checkpoint mapping `attempts_last_ts`.  The intended
values are timestamp strings (`ts`).  However `update` (connector.py line 184)
stores whatever value iterating the `sync_unit_attempts` generator produced;
that is the yielded `unit_attempts` upsert operation, represented by
`upsertOp` carrying the operation payload.  `otherOp` stands for any other
operation shape, unreachable here because `sync_unit_attempts` only ever
yields `unit_attempts` upserts. -/
inductive TsVal where
  | ts (s : String)
  | upsertOp (rows : List AttemptRec)
  | otherOp
deriving DecidableEq

/-- The in-memory checkpoint structure `new_state` built by `update`
(connector.py lines 152-155).  Keys of `attempts_last_ts` are the
`unit.get("unit_id")` values, hence optional. -/
structure CkptState where
  units_last_ts : String
  attempts_last_ts : List (Option String × TsVal)
deriving DecidableEq

/-- An operation emitted to the destination sink.  Per the sink interface
these are opaque operation objects accepted by the host, one constructor per
destination table, plus the checkpoint operation. -/
inductive Op where
  | upsertUnits (rows : List UnitRec)
  | upsertQuestions (rows : List QuestionRec)
  | upsertAttempts (rows : List AttemptRec)
  | upsertResponses (rows : List RespRec)
  | checkpoint (s : CkptState)
deriving DecidableEq

/-- The persisted prior state handed to `update` by the host: optionally a
`units_last_ts` timestamp and a string-keyed map of per-unit attempt
watermarks. -/
structure PriorState where
  units_last_ts : Option String
  attempts_last_ts : List (String × String)
deriving DecidableEq

/-- An HTTP response: status code plus a typed body standing for the parsed
JSON payload `resp.json()`. -/
structure HttpResp (β : Type) where
  status : Nat
  body : β
deriving DecidableEq

/-- `api_request` (socratease_api.py lines 164-183): any non-200 status raises
`RuntimeError` (modelled as `Except.error status`); otherwise the parsed body
is returned. -/
def api_request {β : Type} (resp : HttpResp β) : Except Nat β :=
  if resp.status ≠ 200 then Except.error resp.status else Except.ok resp.body

/-- The outcome of following `data_path` into a paginated response body
(socratease_api.py lines 225-242): the path resolved to a list (`found`), to a
truthy non-list value (`single`), or to nothing usable — a missing key or a
falsy non-list value (`emptyish`). -/
inductive PagBody (α : Type) where
  | found (xs : List α)
  | single (x : α)
  | emptyish
deriving DecidableEq

/-- The `data` list computed by socratease_api.py lines 224-242: the list at
the path, a truthy non-list wrapped as a one-element list, or `[]`. -/
def extract_data {α : Type} : PagBody α → List α
  | .found xs => xs
  | .single x => [x]
  | .emptyish => []

/-- Result of a paginated fetch: the accumulated items and the number of HTTP
requests issued, an aborting API error (with the number of requests issued up
to and including the failing one), or fuel exhaustion (the loop has not
terminated). -/
inductive PagResult (α : Type) where
  | ok (items : List α) (requests : Nat)
  | apiError (status : Nat) (requests : Nat)
  | outOfFuel
deriving DecidableEq

/-- The `while True` loop of `paginated_api_request` (socratease_api.py lines
217-259), fuel-indexed.  Arguments after the limit: fuel, current offset,
requests issued so far, accumulated `all_results`. -/
def paginated_go {α : Type} (server : Nat → HttpResp (PagBody α)) (lim : Nat) :
    Nat → Nat → Nat → List α → PagResult α
  | 0, _, _, _ => .outOfFuel
  | fuel + 1, offset, reqs, all_results =>
    match api_request (server offset) with
    | .error s => .apiError s (reqs + 1)
    | .ok body =>
      let data := extract_data body
      if data.isEmpty then .ok all_results (reqs + 1)
      else if data.length < lim then .ok (all_results ++ data) (reqs + 1)
      else paginated_go server lim fuel (offset + lim) (reqs + 1) (all_results ++ data)

/-- `paginated_api_request` (socratease_api.py lines 186-261).  `server` maps
the offset parameter to the HTTP response; the other query parameters are
fixed by partial application at the call sites.  `params_limit` is the `limit`
entry already present in the caller params, if any; the page-size comparisons
use it when present, else the `limit` argument (lines 214-215 and 255-259). -/
def paginated_api_request {α : Type} (server : Nat → HttpResp (PagBody α))
    (params_limit : Option Nat) (limit : Nat) (fuel : Nat) : PagResult α :=
  let lim := match params_limit with
    | some l => l
    | none => limit
  paginated_go server lim fuel 0 0 []

/-- Query parameters of `GET /v1/units/` as built by `get_units`
(socratease_api.py lines 280-285): `type=quiz` is constant, `limit` always
present, `updated_after` present only when truthy.  There is no offset field:
`get_units` never puts its `offset` argument into the request. -/
structure UnitsParams where
  limit : Nat
  updated_after : Option String
deriving DecidableEq

/-- The units-listing response body with the `.get("data", {}).get("quiz", [])`
chain already applied. -/
structure UnitsBody where
  quiz : List UnitRec
deriving DecidableEq

/-- Query parameters of `GET /v1/user-progress/` (socratease_api.py lines
328-337 plus the offset injected by `paginated_api_request`). -/
structure AttParams where
  unit_id : Option String
  limit : Nat
  updated_after : Option String
  offset : Nat
deriving DecidableEq

/-- Query parameters of `GET /v1/user-responses/` (socratease_api.py lines
367-371). -/
structure RespParams where
  user_id : Option String
  unit_id : Option String
  attempt_num : Option Int
deriving DecidableEq

/-- The upstream API: one response function per endpoint.  The bearer-token
headers and base URL are authentication plumbing with no behavioural content
and are absorbed into the server value. -/
structure Server where
  units : UnitsParams → HttpResp UnitsBody
  unit_details : Option String → HttpResp (List QuestionRec)
  user_progress : AttParams → HttpResp (PagBody AttemptRec)
  user_responses : RespParams → HttpResp (List (String × RVal))

/-- `get_units` (socratease_api.py lines 264-291).  It issues a single
`api_request`; the `offset` argument is accepted but never placed into the
request parameters, and `paginated_api_request` is not used, although the
docstring claims the offset is used internally by it. -/
def get_units (server : Server) (limit : Nat) (offset : Nat)
    (updated_after : Option String) : Except Nat UnitsBody :=
  api_request (server.units
    { limit := limit
      updated_after := if pyTruthyStr updated_after then updated_after else none })

/-- `get_unit_details` (socratease_api.py lines 294-309), with the
`.get("data", {}).get("questions", [])` chain of the caller applied to the
body. -/
def get_unit_details (server : Server) (unit_id : Option String) :
    Except Nat (List QuestionRec) :=
  api_request (server.unit_details unit_id)

/-- `get_unit_attempts` (socratease_api.py lines 312-348): a paginated fetch
of `/v1/user-progress/` with `data_path=["data"]`; the params already contain
`limit`, so the effective page size is that same value. -/
def get_unit_attempts (server : Server) (unit_id : Option String) (limit : Nat)
    (updated_after : Option String) (fuel : Nat) : PagResult AttemptRec :=
  paginated_api_request
    (fun off => server.user_progress
      { unit_id := unit_id
        limit := limit
        updated_after := if pyTruthyStr updated_after then updated_after else none
        offset := off })
    (some limit) limit fuel

/-- `get_question_attempts` (socratease_api.py lines 351-373), with the
`.get("data", {}).get("responses", {})` chain of the caller applied to the
body: an ordered association list from question identifiers to response
values. -/
def get_question_attempts (server : Server) (user_id : Option String)
    (unit_id : Option String) (attempt_num : Option Int) :
    Except Nat (List (String × RVal)) :=
  api_request (server.user_responses
    { user_id := user_id, unit_id := unit_id, attempt_num := attempt_num })

/-- The observable behaviour of one run of a Python generator function: the
values it yielded, in order, and the value of its `return` statement. -/
structure GenOut (ρ : Type) where
  yielded : List Op
  ret : ρ
deriving DecidableEq

/-- `state.get("units_last_ts") or "1970-01-01T00:00:00Z"` (connector.py line
30). -/
def unitsLastSync (state : PriorState) : String :=
  match state.units_last_ts with
  | some s => if s = "" then epochTs else s
  | none => epochTs

/-- Lexicographic code-point comparison of character lists: the order Python
uses when comparing two timestamp strings with `<` or `>`. -/
def charListLt : List Char → List Char → Bool
  | _, [] => false
  | [], _ :: _ => true
  | a :: as, b :: bs =>
    if a.toNat < b.toNat then true
    else if b.toNat < a.toNat then false
    else charListLt as bs

/-- Python string comparison `a < b`. -/
def pyStrLt (a b : String) : Bool := charListLt a.data b.data

/-- One step of the watermark computation `if ts and ts > new_last_ts:
new_last_ts = ts` (connector.py lines 52-54 and 106-108). -/
def bumpTs (new_last_ts : String) (created : Option String) : String :=
  match created with
  | some ts => if ts ≠ "" ∧ pyStrLt new_last_ts ts = true then ts else new_last_ts
  | none => new_last_ts

/-- The new `units_last_ts` checkpoint of `sync_units` (connector.py lines
49-54): the running maximum of truthy `created_at` values, seeded with the
prior watermark. -/
def maxCreatedAt (last_sync : String) (all_units : List UnitRec) : String :=
  all_units.foldl (fun cur x => bumpTs cur x.created_at) last_sync

/-- The `while True` paging loop of `sync_units` (connector.py lines 34-47),
fuel-indexed.  Arguments after `last_sync`: fuel, current offset, accumulated
`all_units`. -/
def sync_units_go (server : Server) (batch_size : Nat) (last_sync : String) :
    Nat → Nat → List UnitRec → Option (Except Nat (List UnitRec))
  | 0, _, _ => none
  | fuel + 1, offset, all_units =>
    match get_units server batch_size offset (some last_sync) with
    | .error e => some (.error e)
    | .ok data =>
      let units := data.quiz
      if units.isEmpty then some (.ok all_units)
      else if units.length < batch_size then some (.ok (all_units ++ units))
      else sync_units_go server batch_size last_sync fuel (offset + batch_size)
        (all_units ++ units)

/-- `sync_units` (connector.py lines 29-57): page through the filtered units
listing, emit one upsert when anything was fetched, and return the new
watermark. -/
def sync_units (server : Server) (config_limit : Option Nat) (state : PriorState)
    (fuel : Nat) : Option (Except Nat (GenOut String)) :=
  let last_sync := unitsLastSync state
  let batch_size := config_limit.getD 100
  match sync_units_go server batch_size last_sync fuel 0 [] with
  | none => none
  | some (.error e) => some (.error e)
  | some (.ok all_units) =>
    some (.ok { yielded := if all_units.isEmpty then [] else [Op.upsertUnits all_units]
                ret := maxCreatedAt last_sync all_units })

/-- `sync_unit_questions` (connector.py lines 68-82): fetch the unit detail,
stamp each question with the owning `unit_id`, and emit one upsert when the
question list is non-empty.  The `state` argument is accepted and unused,
as in the source. -/
def sync_unit_questions (server : Server) (state : PriorState) (unit : UnitRec) :
    Except Nat (List Op) :=
  let unit_id := unit.unit_id
  match get_unit_details server unit_id with
  | .error e => .error e
  | .ok questions =>
    if questions.isEmpty then .ok []
    else .ok [Op.upsertQuestions (questions.map fun q => { q with unit_id := unit_id })]

/-- `state.get("attempts_last_ts", {}).get(unit_id) or "1970-01-01T00:00:00Z"`
(connector.py line 90).  A `None` unit id is never a key of the string-keyed
persisted map, so it falls back to the epoch. -/
def attemptsLastSync (state : PriorState) (unit_id : Option String) : String :=
  match unit_id.bind (fun uid => state.attempts_last_ts.lookup uid) with
  | some s => if s = "" then epochTs else s
  | none => epochTs

/-- The new per-unit watermark of `sync_unit_attempts` (connector.py lines
100-108): running maximum over `attempt.get("finished_at") or
attempt.get("updated_at")`. -/
def maxAttemptTs (last_sync : String) (attempts : List AttemptRec) : String :=
  attempts.foldl (fun cur x => bumpTs cur (pyOrStr x.finished_at x.updated_at)) last_sync

/-- `sync_unit_attempts` (connector.py lines 88-116): a generator that fetches
all attempts of a unit through the paginated fetcher, yields one upsert when
the list is non-empty, and returns the pair of the attempt list and the new
per-unit watermark. -/
def sync_unit_attempts (server : Server) (config_limit : Option Nat)
    (state : PriorState) (unit : UnitRec) (fuel : Nat) :
    Option (Except Nat (GenOut (List AttemptRec × String))) :=
  let unit_id := unit.unit_id
  let last_sync := attemptsLastSync state unit_id
  let batch_size := config_limit.getD 100
  match get_unit_attempts server unit_id batch_size (some last_sync) fuel with
  | .outOfFuel => none
  | .apiError s _ => some (.error s)
  | .ok attempts _ =>
    some (.ok { yielded := if attempts.isEmpty then [] else [Op.upsertAttempts attempts]
                ret := (attempts, maxAttemptTs last_sync attempts) })

/-- The retained responses of `sync_unit_question_attempts` (connector.py
lines 136-142): for each entry of the responses mapping whose value is a
non-empty list, keep `responses[-1]`, the last element. -/
def lastResponses (responses_obj : List (String × RVal)) : List RespRec :=
  responses_obj.filterMap fun kv =>
    match kv.2 with
    | .list responses => responses.getLast?
    | .other _ => none

/-- `sync_unit_question_attempts` (connector.py lines 122-145).  The guard at
line 127 skips the whole call when any of user id, attempt number, unit id is
falsy.  The second component of the result counts the HTTP requests issued
(0 on the skip path, 1 otherwise), and the `state` argument is accepted and
unused, as in the source. -/
def sync_unit_question_attempts (server : Server) (state : PriorState)
    (unit : UnitRec) (attempt : AttemptRec) : Except Nat (List Op × Nat) :=
  let soc_user_id := attempt.user_id
  let attempt_num := attempt.attempt_num
  let unit_id := unit.unit_id
  if pyTruthyStr soc_user_id && pyTruthyInt attempt_num && pyTruthyStr unit_id then
    match get_question_attempts server soc_user_id unit_id attempt_num with
    | .error e => .error e
    | .ok responses_obj =>
      let question_attempts := lastResponses responses_obj
      .ok ((if question_attempts.isEmpty then []
            else [Op.upsertResponses question_attempts]), 1)
  else
    .ok ([], 0)

/-- `isinstance(result, list)` (connector.py line 178) for a value produced by
iterating the `sync_unit_attempts` generator.  Iterating a generator with a
`for` loop produces the yielded values only — the tuple in the generator
`return` statement is never produced by iteration — so `result` is always an
emitted sink operation object, which under the sink interface is an opaque
operation, not a Python list. -/
def opIsPyList (result : Op) : Bool := false

/-- The value `update` stores into `attempts_last_ts` at connector.py line
184: the iterated value itself, i.e. the yielded operation. -/
def tsValOfOp : Op → TsVal
  | .upsertAttempts rows => .upsertOp rows
  | _ => .otherOp

/-- Python dictionary assignment `d[k] = v` on an ordered association list. -/
def dictInsert (m : List (Option String × TsVal)) (k : Option String) (v : TsVal) :
    List (Option String × TsVal) :=
  match m with
  | [] => [(k, v)]
  | kv :: rest => if kv.1 = k then (k, v) :: rest else kv :: dictInsert rest k v

/-- The per-unit body of the orchestrator loop (connector.py lines 167-184),
folded over the step-2 unit listing.  For each unit: forward the yields of
`sync_unit_questions`; run the `sync_unit_attempts` generator; iterate it with
a `for` loop — obtaining only its yielded upsert operations, which are
consumed here and not re-emitted — and, since an operation object is not a
list, store each iterated value into the checkpoint map (the
`isinstance(result, list)` branch, which would sync question attempts, is
unreachable). -/
def update_units_loop (server : Server) (config_limit : Option Nat)
    (state : PriorState) (fuel : Nat) :
    List UnitRec → List Op → CkptState → Option (Except Nat (List Op))
  | [], ops, new_state => some (.ok (ops ++ [Op.checkpoint new_state]))
  | unit :: rest, ops, new_state =>
    match sync_unit_questions server state unit with
    | .error e => some (.error e)
    | .ok qops =>
      match sync_unit_attempts server config_limit state unit fuel with
      | none => none
      | some (.error e) => some (.error e)
      | some (.ok attempts_result) =>
        let new_state2 := attempts_result.yielded.foldl
          (fun acc result =>
            if opIsPyList result then acc
            else { acc with
                   attempts_last_ts := dictInsert acc.attempts_last_ts unit.unit_id
                     (tsValOfOp result) })
          new_state
        update_units_loop server config_limit state fuel rest (ops ++ qops) new_state2

/-- `update` (connector.py lines 151-187): initialise the in-memory state,
run `sync_units` via `yield from` (forwarding its yields and capturing its
returned watermark), re-list the units with a single plain `get_units` call,
run the per-unit loop, and emit the final checkpoint.  The result is the full
sequence of operations the run yields to the host. -/
def update (server : Server) (config_limit : Option Nat) (state : PriorState)
    (fuel : Nat) : Option (Except Nat (List Op)) :=
  let init_state : CkptState :=
    { units_last_ts := state.units_last_ts.getD epochTs
      attempts_last_ts := state.attempts_last_ts.map fun kv => (some kv.1, TsVal.ts kv.2) }
  match sync_units server config_limit state fuel with
  | none => none
  | some (.error e) => some (.error e)
  | some (.ok units_gen) =>
    let new_state := { init_state with units_last_ts := units_gen.ret }
    match get_units server 100 0 none with
    | .error e => some (.error e)
    | .ok data =>
      update_units_loop server config_limit state fuel data.quiz units_gen.yielded new_state

/-- Number of `units` rows contained in a sequence of emitted operations. -/
def unitRowsOf (ops : List Op) : Nat :=
  ops.foldl (fun n op => match op with | .upsertUnits rows => n + rows.length | _ => n) 0

/-- Number of `unit_attempts` rows contained in a sequence of emitted
operations. -/
def attemptRowsOf (ops : List Op) : Nat :=
  ops.foldl (fun n op => match op with | .upsertAttempts rows => n + rows.length | _ => n) 0

/-- Number of `unit_question_attempts` rows contained in a sequence of emitted
operations. -/
def responseRowsOf (ops : List Op) : Nat :=
  ops.foldl (fun n op => match op with | .upsertResponses rows => n + rows.length | _ => n) 0

/-- The question identifiers of all `unit_questions` rows contained in a
sequence of emitted operations. -/
def questionRowIds (ops : List Op) : List String :=
  ops.foldl (fun acc op =>
    match op with
    | .upsertQuestions rows => acc ++ rows.map (fun q => q.question_id)
    | _ => acc) []

/-- The checkpoint states contained in a sequence of emitted operations. -/
def checkpointsOf (ops : List Op) : List CkptState :=
  ops.filterMap fun op => match op with | .checkpoint s => some s | _ => none

/-- The operations of a completed run, `[]` when the run failed or ran out of
fuel. -/
def updateOpsOrNil (r : Option (Except Nat (List Op))) : List Op :=
  match r with
  | some (.ok ops) => ops
  | _ => []

/-- Whether a run of `update` terminated without an API error. -/
def updateRanOk (r : Option (Except Nat (List Op))) : Bool :=
  match r with
  | some (.ok _) => true
  | _ => false

/-! ## Concrete scenarios -/

/-- Creation timestamp of the single unit in the end-to-end scenario (T1). -/
def tA : String := "2024-04-06T23:07:23Z"

/-- Finishing timestamp of the first attempt in the end-to-end scenario (T2). -/
def tB : String := "2024-04-07T10:15:00Z"

/-- Finishing timestamp of the second attempt (T3). -/
def tC : String := "2024-04-08T09:00:00Z"

/-- The single unit U1 of the end-to-end scenario, created at T1. -/
def unitU1 : UnitRec := { unit_id := some "U1", created_at := some tA }

/-- The question of U1, as served by the unit-details endpoint (before the
connector stamps `unit_id`). -/
def questionQ1 : QuestionRec := { question_id := "Q1", updated_at := tA, unit_id := none }

/-- The question of U1 after `sync_unit_questions` stamps the owning unit id. -/
def questionQ1stamped : QuestionRec :=
  { question_id := "Q1", updated_at := tA, unit_id := some "U1" }

/-- Attempt A1: user X, attempt number 1, finished at T2. -/
def attemptA1 : AttemptRec :=
  { user_id := some "X", attempt_num := some 1, finished_at := some tB, updated_at := none }

/-- Attempt A2: user X, attempt number 2, finished at T3. -/
def attemptA2 : AttemptRec :=
  { user_id := some "X", attempt_num := some 2, finished_at := some tC, updated_at := none }

/-- The response R1. -/
def respR1 : RespRec := { user_response_id := 73189645 }

/-- An empty prior state: the first run. -/
def emptyPrior : PriorState := { units_last_ts := none, attempts_last_ts := [] }

/-- The end-to-end upstream: one unit U1 with one question, the given attempt
list, and a one-element response list under one question key. -/
def scenarioServer (attempts : List AttemptRec) : Server :=
  { units := fun _ => ⟨200, ⟨[unitU1]⟩⟩
    unit_details := fun _ => ⟨200, [questionQ1]⟩
    user_progress := fun _ => ⟨200, PagBody.found attempts⟩
    user_responses := fun _ => ⟨200, [("194101", RVal.list [respR1])]⟩ }

/-- The operations `update` actually emits on the one-attempt end-to-end
scenario. -/
def c1expected : List Op :=
  [Op.upsertUnits [unitU1],
   Op.upsertQuestions [questionQ1stamped],
   Op.checkpoint { units_last_ts := tA
                   attempts_last_ts := [(some "U1", TsVal.upsertOp [attemptA1])] }]

/-- The checkpoint `update` actually emits on the two-attempt scenario. -/
def c2ckpt : CkptState :=
  { units_last_ts := tA
    attempts_last_ts := [(some "U1", TsVal.upsertOp [attemptA1, attemptA2])] }

/-- 101 quiz units, identified by the decimal numerals 0 to 100, all created
at the same instant. -/
def manyUnits : List UnitRec :=
  (List.range 101).map fun i =>
    { unit_id := some (Nat.repr i), created_at := some "2024-01-01T00:00:00Z" }

/-- An upstream holding `manyUnits` whose listing endpoint honours the `limit`
parameter but — receiving no offset parameter, because `get_units` sends none —
always serves the first page of matching units. -/
def pagedUnitsServer : Server :=
  { units := fun p => ⟨200, ⟨manyUnits.take p.limit⟩⟩
    unit_details := fun _ => ⟨200, []⟩
    user_progress := fun _ => ⟨200, PagBody.found []⟩
    user_responses := fun _ => ⟨200, []⟩ }

/-- An upstream holding `manyUnits` whose listing endpoint returns nothing for
filtered queries (every unit predates any `updated_after` value in use) and
serves the first `limit` units otherwise; each unit owns one question whose
identifier equals the unit identifier. -/
def relistServer : Server :=
  { units := fun p =>
      ⟨200, ⟨match p.updated_after with
             | some _ => []
             | none => manyUnits.take p.limit⟩⟩
    unit_details := fun uid =>
      ⟨200, [{ question_id := uid.getD "", updated_at := "2024-01-01T00:00:00Z",
               unit_id := none }]⟩
    user_progress := fun _ => ⟨200, PagBody.found []⟩
    user_responses := fun _ => ⟨200, []⟩ }

/-- A unit created exactly at the stored watermark instant. -/
def unitAtWatermark : UnitRec :=
  { unit_id := some "U-old", created_at := some "2024-01-01T00:00:00Z" }

/-- An upstream serving exactly `unitAtWatermark`. -/
def watermarkEqualServer : Server :=
  { units := fun _ => ⟨200, ⟨[unitAtWatermark]⟩⟩
    unit_details := fun _ => ⟨200, []⟩
    user_progress := fun _ => ⟨200, PagBody.found []⟩
    user_responses := fun _ => ⟨200, []⟩ }

/-- A prior state whose units watermark equals the creation instant of
`unitAtWatermark`. -/
def priorAtWatermark : PriorState :=
  { units_last_ts := some "2024-01-01T00:00:00Z", attempts_last_ts := [] }

/-- The amended watermark property of a `sync_units` run that fetched
`all_units`: the new watermark is the old one or strictly above it, and it
equals the old one exactly when no fetched unit carries a truthy `created_at`
strictly greater than the old watermark — in particular when nothing was
fetched, but also when units are fetched whose creation timestamps do not
exceed the stored watermark. -/
def UnitsWatermarkProp (state : PriorState) (all_units : List UnitRec) : Prop :=
  (maxCreatedAt (unitsLastSync state) all_units = unitsLastSync state ∨
      pyStrLt (unitsLastSync state) (maxCreatedAt (unitsLastSync state) all_units) = true) ∧
    (maxCreatedAt (unitsLastSync state) all_units = unitsLastSync state ↔
      ∀ u ∈ all_units, ∀ ts, u.created_at = some ts →
        ts = "" ∨ pyStrLt (unitsLastSync state) ts = false)

/-- First full page of the three-page witness upstream: the numbers 0-99. -/
def pageOne : List Nat := List.range 100

/-- Second full page: the numbers 100-199. -/
def pageTwo : List Nat := (List.range 100).map fun i => 100 + i

/-- The short final page: the numbers 200-236. -/
def pageShort : List Nat := (List.range 37).map fun i => 200 + i

/-- A three-page offset-addressed upstream with page size 100: requests at
offset k return the items at positions k to k+99. -/
def threePageServer : Nat → HttpResp (PagBody Nat) :=
  fun off => ⟨200, PagBody.found (([pageOne, pageTwo] ++ [pageShort]).getD (off / 100) [])⟩

/-- An upstream that serves one full page at offset 0 and a status-500
response at every other offset. -/
def failingServer : Nat → HttpResp (PagBody Nat) :=
  fun off => if off = 0 then ⟨200, PagBody.found [5]⟩ else ⟨500, PagBody.emptyish⟩

/-- Responses r1, r2, r3 of one question within one attempt. -/
def respRecA : RespRec := { user_response_id := 1 }

/-- Second response of the three-response list. -/
def respRecB : RespRec := { user_response_id := 2 }

/-- Third (last) response of the three-response list. -/
def respRecC : RespRec := { user_response_id := 3 }

/-- An upstream whose question-attempts endpoint returns one question with the
response list [r1, r2, r3]. -/
def threeRespServer : Server :=
  { units := fun _ => ⟨200, ⟨[]⟩⟩
    unit_details := fun _ => ⟨200, []⟩
    user_progress := fun _ => ⟨200, PagBody.found []⟩
    user_responses := fun _ => ⟨200, [("194101", RVal.list [respRecA, respRecB, respRecC])]⟩ }

/-- An attempt with no user id. -/
def noUserAttempt : AttemptRec :=
  { user_id := none, attempt_num := some 1, finished_at := some tB, updated_at := none }

/-- An attempt whose attempt number is present and equals 0. -/
def zeroNumAttempt : AttemptRec :=
  { user_id := some "X", attempt_num := some 0, finished_at := some tB, updated_at := none }

/-! ## Theorems -/

/-- C1: code_bug evidence.  On the first-run scenario of the claim — one unit
U1 created at T1 with one question, one attempt A1 (user X, attempt number 1)
finished at T2, one response R1 in a one-element list — `update` emits the
unit row and the question row, but zero `unit_attempts` rows and zero
`unit_question_attempts` rows, and the final checkpoint maps U1 to the
consumed upsert operation object, not to the timestamp T2.  The claim says
one attempt row, one response row and a final state mapping U1 to T2. -/
theorem C1_end_to_end_divergence :
    update (scenarioServer [attemptA1]) none emptyPrior 3 = some (Except.ok c1expected) ∧
      unitRowsOf c1expected = 1 ∧
      questionRowIds c1expected = ["Q1"] ∧
      attemptRowsOf c1expected = 0 ∧
      responseRowsOf c1expected = 0 ∧
      checkpointsOf c1expected
        = [{ units_last_ts := tA
             attempts_last_ts := [(some "U1", TsVal.upsertOp [attemptA1])] }] ∧
      TsVal.upsertOp [attemptA1] ≠ TsVal.ts tB := by
  exact ⟨rfl, rfl, rfl, rfl, rfl, rfl, by decide⟩

/-- C2: code_bug evidence.  On a unit with two finished attempts, the value
stored under U1 in the in-memory checkpoint is the iterated upsert operation
object — not a timestamp at all, in particular not the maximum T3 of the
attempts' `finished_at` values, which `maxAttemptTs` would compute — and no
`unit_question_attempts` row is emitted even though the upstream has a
response list for every attempt, because iterating the generator never
produces the attempt list announced by the comment at connector.py line 176. -/
theorem C2_watermark_divergence :
    update (scenarioServer [attemptA1, attemptA2]) none emptyPrior 3
        = some (Except.ok
            [Op.upsertUnits [unitU1], Op.upsertQuestions [questionQ1stamped],
             Op.checkpoint c2ckpt]) ∧
      c2ckpt.attempts_last_ts.lookup (some "U1")
        = some (TsVal.upsertOp [attemptA1, attemptA2]) ∧
      maxAttemptTs (attemptsLastSync emptyPrior (some "U1")) [attemptA1, attemptA2] = tC ∧
      (∀ s : String, TsVal.upsertOp [attemptA1, attemptA2] ≠ TsVal.ts s) ∧
      responseRowsOf [Op.upsertUnits [unitU1], Op.upsertQuestions [questionQ1stamped],
        Op.checkpoint c2ckpt] = 0 := by
  exact ⟨rfl, rfl, rfl, fun s h => TsVal.noConfusion h, rfl⟩

/-- The paging loop of `sync_units` never terminates against
`pagedUnitsServer`: since `get_units` sends no offset, every iteration
receives the same full first page of 100 units. -/
theorem sync_units_go_diverges (last_sync : String) (fuel : Nat) :
    ∀ offset acc, sync_units_go pagedUnitsServer 100 last_sync fuel offset acc = none := by
  induction fuel with
  | zero => intro offset acc; rfl
  | succ n ih => intro offset acc; exact ih (offset + 100) (acc ++ manyUnits.take 100)

/-- C3: code_bug evidence.  With 101 matching units upstream at the default
page size 100, the Units Sync never terminates for any amount of fuel:
`get_units` drops its `offset` argument from the request, so no request ever
carries an advanced offset and no short page ever arrives.  The claim says
each successive request is issued at an offset advanced by the page size and
that every matching unit is fetched exactly once. -/
theorem C3_units_paging_never_terminates (fuel : Nat) :
    sync_units pagedUnitsServer none emptyPrior fuel = none := by
  have h := sync_units_go_diverges (unitsLastSync emptyPrior) fuel 0 []
  simp only [sync_units, Option.getD_none]
  rw [h]

set_option maxRecDepth 8000 in
/-- C4: code_bug evidence.  With 101 known units upstream, the step-2
re-listing of `update` is a single unpaginated request with the default limit
100, so the orchestrator enumerates the units 0 to 99 for child-entity
syncing (a question row with identifier 99 is emitted) but never unit 100,
although unit 100 is a known unit of the upstream.  The claim says the full
paginated listing is fetched so that every known unit is enumerated. -/
theorem C4_single_page_relisting :
    updateRanOk (update relistServer none emptyPrior 3) = true ∧
      ((manyUnits.map fun u => u.unit_id).contains (some "100")) = true ∧
      (questionRowIds (updateOpsOrNil (update relistServer none emptyPrior 3))).contains "99"
        = true ∧
      (questionRowIds (updateOpsOrNil (update relistServer none emptyPrior 3))).contains "100"
        = false := by
  exact ⟨rfl, rfl, rfl, rfl⟩

/-- C5 counterexample: a run of the Units Sync that fetches one unit — created
exactly at the stored watermark — and still leaves the watermark unchanged,
refuting the claimed equivalence between watermark equality and an empty
fetch. -/
theorem C5_counterexample :
    sync_units watermarkEqualServer none priorAtWatermark 1
        = some (Except.ok { yielded := [Op.upsertUnits [unitAtWatermark]]
                            ret := "2024-01-01T00:00:00Z" }) ∧
      unitsLastSync priorAtWatermark = "2024-01-01T00:00:00Z" ∧
      ¬(("2024-01-01T00:00:00Z" : String) = unitsLastSync priorAtWatermark ↔
          ([unitAtWatermark] : List UnitRec) = []) := by
  exact ⟨rfl, rfl, fun h => List.noConfusion (h.mp rfl)⟩

/-- The lexicographic character-list order is irreflexive. -/
theorem charListLt_self (l : List Char) : charListLt l l = false := by
  induction l with
  | nil => rfl
  | cons a as ih => simp [charListLt, ih]

/-- Python string comparison is irreflexive. -/
theorem pyStrLt_self (s : String) : pyStrLt s s = false := charListLt_self s.data

/-- The lexicographic character-list order is transitive. -/
theorem charListLt_trans {l1 l2 l3 : List Char} (h1 : charListLt l1 l2 = true)
    (h2 : charListLt l2 l3 = true) : charListLt l1 l3 = true := by
  induction l1 generalizing l2 l3 with
  | nil =>
    cases l2 with
    | nil => simp [charListLt] at h1
    | cons b bs =>
      cases l3 with
      | nil => simp [charListLt] at h2
      | cons c cs => rfl
  | cons a as ih =>
    cases l2 with
    | nil => simp [charListLt] at h1
    | cons b bs =>
      cases l3 with
      | nil => simp [charListLt] at h2
      | cons c cs =>
        simp only [charListLt] at h1 h2 ⊢
        by_cases hab : a.toNat < b.toNat
        · by_cases hbc : b.toNat < c.toNat
          · simp [show a.toNat < c.toNat from lt_trans hab hbc]
          · by_cases hcb : c.toNat < b.toNat
            · simp [hbc, hcb] at h2
            · simp [show a.toNat < c.toNat by omega]
        · by_cases hba : b.toNat < a.toNat
          · simp [hab, hba] at h1
          · by_cases hbc : b.toNat < c.toNat
            · simp [show a.toNat < c.toNat by omega]
            · by_cases hcb : c.toNat < b.toNat
              · simp [hbc, hcb] at h2
              · have h1r : charListLt as bs = true := by simpa [hab, hba] using h1
                have h2r : charListLt bs cs = true := by simpa [hbc, hcb] using h2
                simp [show ¬ a.toNat < c.toNat by omega, show ¬ c.toNat < a.toNat by omega,
                  ih h1r h2r]

/-- Python string comparison is transitive. -/
theorem pyStrLt_trans {a b c : String} (h1 : pyStrLt a b = true) (h2 : pyStrLt b c = true) :
    pyStrLt a c = true := charListLt_trans h1 h2

/-- A watermark fold started strictly above `s` stays strictly above `s`. -/
theorem foldl_bumpTs_above {β : Type} (key : β → Option String) (s : String) :
    ∀ (l : List β) (cur : String), pyStrLt s cur = true →
      pyStrLt s (l.foldl (fun c x => bumpTs c (key x)) cur) = true := by
  intro l
  induction l with
  | nil => intro cur h; exact h
  | cons x rest ih =>
    intro cur h
    rw [List.foldl_cons]
    apply ih
    cases hk : key x with
    | none => simpa [bumpTs] using h
    | some ts =>
      simp only [bumpTs]
      by_cases hc : ts ≠ "" ∧ pyStrLt cur ts = true
      · rw [if_pos hc]; exact pyStrLt_trans h hc.2
      · rw [if_neg hc]; exact h

/-- A watermark fold over elements none of which exceeds the seed leaves the
seed unchanged. -/
theorem foldl_bumpTs_stay {β : Type} (key : β → Option String) (s : String) :
    ∀ l : List β, (∀ x ∈ l, ∀ ts, key x = some ts → ts = "" ∨ pyStrLt s ts = false) →
      l.foldl (fun c x => bumpTs c (key x)) s = s := by
  intro l
  induction l with
  | nil => intro _; rfl
  | cons x rest ih =>
    intro hall
    rw [List.foldl_cons]
    have hb : bumpTs s (key x) = s := by
      cases hk : key x with
      | none => rfl
      | some ts =>
        simp only [bumpTs]
        have hcn : ¬(ts ≠ "" ∧ pyStrLt s ts = true) := by
          intro hc
          rcases hall x (List.mem_cons_self x rest) ts hk with h1 | h1
          · exact hc.1 h1
          · rw [h1] at hc; exact Bool.noConfusion hc.2
        rw [if_neg hcn]
    rw [hb]
    exact ih fun y hy ts hts => hall y (List.mem_cons_of_mem x hy) ts hts

/-- If a watermark fold leaves the seed unchanged, no element exceeded it. -/
theorem foldl_bumpTs_eq_imp {β : Type} (key : β → Option String) (s : String) :
    ∀ l : List β, l.foldl (fun c x => bumpTs c (key x)) s = s →
      ∀ x ∈ l, ∀ ts, key x = some ts → ts = "" ∨ pyStrLt s ts = false := by
  intro l
  induction l with
  | nil => intro _ x hx; exact absurd hx (List.not_mem_nil x)
  | cons x rest ih =>
    intro h y hy ts hts
    rw [List.foldl_cons] at h
    have hb : bumpTs s (key x) = s := by
      cases hk : key x with
      | none => rfl
      | some ts2 =>
        by_cases hc : ts2 ≠ "" ∧ pyStrLt s ts2 = true
        · exfalso
          have hb2 : bumpTs s (some ts2) = ts2 := by
            simp only [bumpTs]; rw [if_pos hc]
          rw [hk, hb2] at h
          have habove := foldl_bumpTs_above key s rest ts2 hc.2
          rw [h, pyStrLt_self] at habove
          exact Bool.noConfusion habove
        · simp only [bumpTs]; rw [if_neg hc]
    rcases List.mem_cons.mp hy with hrfl | hyr
    · subst hrfl
      rw [hts] at hb
      simp only [bumpTs] at hb
      by_cases hc : ts ≠ "" ∧ pyStrLt s ts = true
      · rw [if_pos hc] at hb
        right; rw [hb]; exact pyStrLt_self s
      · by_cases he : ts = ""
        · exact Or.inl he
        · right
          by_cases hlt : pyStrLt s ts = true
          · exact absurd ⟨he, hlt⟩ hc
          · simpa using hlt
    · rw [hb] at h
      exact ih h y hyr ts hts

/-- A watermark fold returns its seed or a value strictly above it. -/
theorem foldl_bumpTs_ge {β : Type} (key : β → Option String) (s : String) :
    ∀ l : List β, l.foldl (fun c x => bumpTs c (key x)) s = s ∨
      pyStrLt s (l.foldl (fun c x => bumpTs c (key x)) s) = true := by
  intro l
  induction l with
  | nil => exact Or.inl rfl
  | cons x rest ih =>
    rw [List.foldl_cons]
    cases hk : key x with
    | none =>
      have hb : bumpTs s none = s := rfl
      rw [hb]
      exact ih
    | some ts =>
      by_cases hc : ts ≠ "" ∧ pyStrLt s ts = true
      · right
        have hb : bumpTs s (some ts) = ts := by simp only [bumpTs]; rw [if_pos hc]
        rw [hb]
        exact foldl_bumpTs_above key s rest ts hc.2
      · have hb : bumpTs s (some ts) = s := by simp only [bumpTs]; rw [if_neg hc]
        rw [hb]
        exact ih

/-- C5 (amended): for every terminating run of the Units Sync fetching
`all_units`, the emitted result is the upsert of the fetched units (when
non-empty) with the folded watermark, and the watermark satisfies
`UnitsWatermarkProp`: it never decreases, and it stays equal to the prior
watermark exactly when no fetched unit has a truthy `created_at` strictly
above it.  The original claim — equality iff nothing was fetched — is refuted
by `C5_counterexample`. -/
theorem C5_units_watermark (server : Server) (config_limit : Option Nat)
    (state : PriorState) (fuel : Nat) (all_units : List UnitRec)
    (hgo : sync_units_go server (config_limit.getD 100) (unitsLastSync state) fuel 0 []
            = some (Except.ok all_units)) :
    sync_units server config_limit state fuel
        = some (Except.ok
            { yielded := if all_units.isEmpty then [] else [Op.upsertUnits all_units]
              ret := maxCreatedAt (unitsLastSync state) all_units }) ∧
      UnitsWatermarkProp state all_units := by
  constructor
  · simp only [sync_units]
    rw [hgo]
  · unfold UnitsWatermarkProp maxCreatedAt
    exact ⟨foldl_bumpTs_ge (fun u => u.created_at) (unitsLastSync state) all_units,
      foldl_bumpTs_eq_imp (fun u => u.created_at) (unitsLastSync state) all_units,
      foldl_bumpTs_stay (fun u => u.created_at) (unitsLastSync state) all_units⟩

/-- Witness for `C5_units_watermark`: the one-unit first-run scenario, where
the fetched unit was created strictly after the epoch watermark. -/
theorem C5_units_watermark_witness :
    sync_units (scenarioServer [attemptA1]) none emptyPrior 1
        = some (Except.ok
            { yielded := if ([unitU1] : List UnitRec).isEmpty then []
                         else [Op.upsertUnits [unitU1]]
              ret := maxCreatedAt (unitsLastSync emptyPrior) [unitU1] }) ∧
      UnitsWatermarkProp emptyPrior [unitU1] :=
  C5_units_watermark (scenarioServer [attemptA1]) none emptyPrior 1 [unitU1] rfl

/-- A 200 response passes through `api_request`. -/
theorem api_request_ok {β : Type} (b : β) : api_request ⟨200, b⟩ = Except.ok b := rfl

/-- A non-200 response makes `api_request` raise. -/
theorem api_request_err {β : Type} (s : Nat) (b : β) (hs : s ≠ 200) :
    api_request ⟨s, b⟩ = Except.error s := by
  simp [api_request, hs]

/-- `getD` on an append, reading inside the first list. -/
theorem getD_append_left {α : Type} (l l2 : List α) (i : Nat) (d : α) (h : i < l.length) :
    (l ++ l2).getD i d = l.getD i d := by
  induction l generalizing i with
  | nil => simp at h
  | cons a as ih =>
    cases i with
    | zero => rfl
    | succ n =>
      simp only [List.cons_append, List.getD_cons_succ]
      exact ih n (by simpa using Nat.lt_of_succ_lt_succ h)

/-- `getD` at the position right after the first list of an append. -/
theorem getD_append_self {α : Type} (l : List α) (x : α) (d : α) :
    (l ++ [x]).getD l.length d = x := by
  induction l with
  | nil => rfl
  | cons a as ih => simpa using ih

/-- Serving `paginated_go` a run of consecutive full pages makes it consume
one fuel, one request and one page per step, advancing the offset by the page
size each time and accumulating the concatenation of the pages. -/
theorem paginated_go_full_pages {α : Type} (server : Nat → HttpResp (PagBody α))
    (lim : Nat) (hlim : 0 < lim) (pages : List (List α)) :
    ∀ (offset reqs fuel : Nat) (acc : List α),
      (∀ p ∈ pages, p.length = lim) →
      (∀ i, i < pages.length →
        server (offset + i * lim) = ⟨200, PagBody.found (pages.getD i [])⟩) →
      paginated_go server lim (fuel + pages.length) offset reqs acc
        = paginated_go server lim fuel (offset + pages.length * lim)
            (reqs + pages.length) (acc ++ pages.join) := by
  induction pages with
  | nil =>
    intro offset reqs fuel acc _ _
    simp
  | cons p rest ih =>
    intro offset reqs fuel acc hfull hserver
    have hp : server offset = ⟨200, PagBody.found p⟩ := by
      have h0 := hserver 0 (by simp)
      simpa using h0
    have hplen : p.length = lim := hfull p (List.mem_cons_self p rest)
    have hpe : p.isEmpty = false := by
      cases p with
      | nil => exact absurd hplen (by simpa using Nat.ne_of_lt hlim)
      | cons a as => rfl
    have hstep : paginated_go server lim ((fuel + rest.length) + 1) offset reqs acc
        = paginated_go server lim (fuel + rest.length) (offset + lim) (reqs + 1) (acc ++ p) := by
      rw [paginated_go, hp, api_request_ok]
      simp only [extract_data, hpe, hplen, Bool.false_eq_true, lt_self_iff_false, if_false]
    rw [show fuel + (p :: rest).length = (fuel + rest.length) + 1 by
      simp only [List.length_cons]; omega]
    rw [hstep]
    rw [ih (offset + lim) (reqs + 1) fuel (acc ++ p)
      (fun q hq => hfull q (List.mem_cons_of_mem p hq))
      (fun i hi => by
        have h2 := hserver (i + 1) (by simpa using Nat.succ_lt_succ hi)
        rw [show offset + (i + 1) * lim = offset + lim + i * lim by ring] at h2
        simpa using h2)]
    have e1 : offset + lim + rest.length * lim = offset + (p :: rest).length * lim := by
      simp only [List.length_cons]
      ring
    have e2 : reqs + 1 + rest.length = reqs + (p :: rest).length := by
      simp only [List.length_cons]
      omega
    have e3 : acc ++ p ++ rest.join = acc ++ (p :: rest).join := by
      simp [List.append_assoc]
    rw [e1, e2, e3]

/-- C6: for any upstream run of full pages followed by one short (or empty)
page, addressed by offsets advancing in steps of the page size, the paginated
fetcher returns exactly the concatenation of the pages, in order, and issues
exactly one request per page, stopping at the short or empty page. -/
theorem C6_pagination_exact {α : Type} (server : Nat → HttpResp (PagBody α)) (lim : Nat)
    (hlim : 0 < lim) (fullPages : List (List α)) (lastPage : List α)
    (hfull : ∀ p ∈ fullPages, p.length = lim) (hlast : lastPage.length < lim)
    (hserver : ∀ i, i ≤ fullPages.length →
      server (i * lim) = ⟨200, PagBody.found ((fullPages ++ [lastPage]).getD i [])⟩)
    (fuel : Nat) (hfuel : fullPages.length < fuel) :
    paginated_api_request server (some lim) lim fuel
      = PagResult.ok ((fullPages ++ [lastPage]).join) (fullPages.length + 1) := by
  obtain ⟨k, rfl⟩ : ∃ k, fuel = (k + 1) + fullPages.length :=
    ⟨fuel - fullPages.length - 1, by omega⟩
  show paginated_go server lim ((k + 1) + fullPages.length) 0 0 [] = _
  rw [paginated_go_full_pages server lim hlim fullPages 0 0 (k + 1) [] hfull
    (fun i hi => by
      have h2 := hserver i (le_of_lt hi)
      rw [getD_append_left fullPages [lastPage] i [] hi] at h2
      simpa using h2)]
  have hlastresp : server (0 + fullPages.length * lim) = ⟨200, PagBody.found lastPage⟩ := by
    have h2 := hserver fullPages.length (le_refl _)
    rw [getD_append_self fullPages lastPage []] at h2
    simpa using h2
  rw [paginated_go, hlastresp, api_request_ok]
  cases lastPage with
  | nil => simp [extract_data]
  | cons a as =>
    have hne : (a :: as).isEmpty = false := rfl
    simp only [extract_data, hne, Bool.false_eq_true, if_false]
    rw [if_pos hlast]
    simp

/-- Witness for `C6_pagination_exact`: pages of sizes 100, 100 and 37 at page
size 100 yield the 237 items in three requests. -/
theorem C6_pagination_exact_witness :
    paginated_api_request threePageServer (some 100) 100 3
      = PagResult.ok (([pageOne, pageTwo] ++ [pageShort]).join) 3 :=
  C6_pagination_exact threePageServer 100 (by decide) [pageOne, pageTwo] pageShort
    (by decide) (by decide)
    (by
      intro i hi
      have hi2 : i ≤ 2 := by simpa using hi
      interval_cases i <;> rfl)
    3 (by decide)

/-- C7: a non-200 response makes `api_request` raise a fatal error, and a
paginated fetch hitting it after any run of full pages aborts with that
error: no retry is issued (exactly one request per page plus the failing one)
and no partially accumulated items are returned. -/
theorem C7_non200_aborts {α : Type} (server : Nat → HttpResp (PagBody α)) (lim : Nat)
    (hlim : 0 < lim) (fullPages : List (List α)) (s : Nat) (b : PagBody α)
    (hfull : ∀ p ∈ fullPages, p.length = lim)
    (hserver : ∀ i, i < fullPages.length →
      server (i * lim) = ⟨200, PagBody.found (fullPages.getD i [])⟩)
    (herr : server (fullPages.length * lim) = ⟨s, b⟩) (hs : s ≠ 200) (fuel : Nat)
    (hfuel : fullPages.length < fuel) :
    api_request (server (fullPages.length * lim)) = Except.error s ∧
      paginated_api_request server (some lim) lim fuel
        = PagResult.apiError s (fullPages.length + 1) := by
  constructor
  · rw [herr]; exact api_request_err s b hs
  · obtain ⟨k, rfl⟩ : ∃ k, fuel = (k + 1) + fullPages.length :=
      ⟨fuel - fullPages.length - 1, by omega⟩
    show paginated_go server lim ((k + 1) + fullPages.length) 0 0 [] = _
    rw [paginated_go_full_pages server lim hlim fullPages 0 0 (k + 1) [] hfull
      (fun i hi => by simpa using hserver i hi)]
    have herr2 : server (0 + fullPages.length * lim) = ⟨s, b⟩ := by simpa using herr
    rw [paginated_go, herr2, api_request_err s b hs]
    simp

/-- Witness for `C7_non200_aborts`: one full page of size 1 followed by a 500
response aborts the fetch with the error after two requests and no items. -/
theorem C7_non200_aborts_witness :
    api_request (failingServer 1) = Except.error 500 ∧
      paginated_api_request failingServer (some 1) 1 2 = PagResult.apiError 500 2 :=
  C7_non200_aborts failingServer 1 (by decide) [[5]] 500 PagBody.emptyish (by decide)
    (by
      intro i hi
      have hi2 : i ≤ 0 := by simpa using hi
      interval_cases i
      rfl)
    rfl (by decide) 2 (by decide)

/-- C8: when the guard parameters are all truthy and the question-attempts
endpoint returns the response list [r1, r2, r3] for one question,
`sync_unit_question_attempts` emits exactly [r3]: only the last element of
the list is retained, the earlier elements are discarded. -/
theorem C8_last_response_wins (server : Server) (state : PriorState) (unit : UnitRec)
    (attempt : AttemptRec) (key : String) (r1 r2 r3 : RespRec)
    (huid : pyTruthyStr attempt.user_id = true)
    (hnum : pyTruthyInt attempt.attempt_num = true)
    (hunit : pyTruthyStr unit.unit_id = true)
    (hresp : server.user_responses
        { user_id := attempt.user_id, unit_id := unit.unit_id
          attempt_num := attempt.attempt_num }
        = ⟨200, [(key, RVal.list [r1, r2, r3])]⟩) :
    sync_unit_question_attempts server state unit attempt
      = Except.ok ([Op.upsertResponses [r3]], 1) := by
  simp only [sync_unit_question_attempts, get_question_attempts]
  rw [huid, hnum, hunit, hresp]
  rfl

/-- Witness for `C8_last_response_wins`: a concrete attempt against the
three-response upstream emits only the third response. -/
theorem C8_last_response_wins_witness :
    sync_unit_question_attempts threeRespServer emptyPrior unitU1 attemptA1
      = Except.ok ([Op.upsertResponses [respRecC]], 1) :=
  C8_last_response_wins threeRespServer emptyPrior unitU1 attemptA1 "194101"
    respRecA respRecB respRecC rfl rfl rfl rfl

/-- C9: when the user id, the attempt number or the unit id is absent, the
question-attempts sync performs no API request against any server, emits zero
records and raises no exception. -/
theorem C9_missing_param_skip (server : Server) (state : PriorState) (unit : UnitRec)
    (attempt : AttemptRec)
    (h : attempt.user_id = none ∨ attempt.attempt_num = none ∨ unit.unit_id = none) :
    sync_unit_question_attempts server state unit attempt = Except.ok ([], 0) := by
  simp only [sync_unit_question_attempts]
  rcases h with h | h | h <;> rw [h] <;> simp [pyTruthyStr, pyTruthyInt]

/-- Witness for `C9_missing_param_skip`: an attempt without a user id is
skipped. -/
theorem C9_missing_param_skip_witness :
    sync_unit_question_attempts threeRespServer emptyPrior unitU1 noUserAttempt
      = Except.ok ([], 0) :=
  C9_missing_param_skip threeRespServer emptyPrior unitU1 noUserAttempt (Or.inl rfl)

/-- C10: the guard treats any falsy parameter as missing: an attempt number
that is present and equals 0, an empty-string user id, or an empty-string
unit id each make the question-attempts sync skip the fetch and emit
nothing. -/
theorem C10_falsy_param_skip (server : Server) (state : PriorState) (unit : UnitRec)
    (attempt : AttemptRec)
    (h : attempt.attempt_num = some 0 ∨ attempt.user_id = some "" ∨ unit.unit_id = some "") :
    sync_unit_question_attempts server state unit attempt = Except.ok ([], 0) := by
  simp only [sync_unit_question_attempts]
  rcases h with h | h | h <;> rw [h] <;> simp [pyTruthyStr, pyTruthyInt]

/-- Witness for `C10_falsy_param_skip`: an attempt with attempt number 0 is
skipped. -/
theorem C10_falsy_param_skip_witness :
    sync_unit_question_attempts threeRespServer emptyPrior unitU1 zeroNumAttempt
      = Except.ok ([], 0) :=
  C10_falsy_param_skip threeRespServer emptyPrior unitU1 zeroNumAttempt (Or.inl rfl)

end Socratease
